import Mathlib

/-!
Verification development for the go-macaron/csrf middleware (csrf.go).

The Go source is embedded shallowly:
  * `Response` models what an `http.ResponseWriter` receives for an error
    reply: the status code and the error message passed to `http.Error`.
  * `csrf` models the capability struct of csrf.go with its methods
    `GetToken`, `ValidToken`, `Error`.
  * `Options` models the `Options` struct; `resolveOptions` models the
    in-place defaulting at the top of the `Generate` closure (lines 123-136).
  * `Generate` models one run of the handler closure returned by
    `Generate(opts)` on a single request: it returns the mutated options,
    the published capability, the emitted `Set-Cookie` (if any) and the
    added response header (if any).
  * `Validate` models the per-route `Validate(r, w, x)` middleware: the
    result is `none` when the request passes, `some resp` when a response
    is written.
  * Go's `regexp.Match(domainReg, host)` is embedded by a small regular
    expression interpreter `reRun`/`regexpMatch` over an AST `RE`, with
    `domainReg` the RE2 parse of the source's pattern string, literal
    slashes included.

The token codec (`GenerateToken` / the free `ValidToken`) lives in a file
of this repository that is not part of the sources at hand; it is modelled
from the specification: a deterministic keyed hash over
`identity ++ purposeTag`, keyed by the secret, producing a fixed-format
encoded string, with validation recomputing the expected token and
comparing it with the candidate.
-/

namespace MacaronCsrf

/-- An HTTP error reply: status code and the message handed to `http.Error`. -/
structure Response where
  status : Nat
  body : String
deriving DecidableEq, Repr

/-- Modelled from the spec: the token codec's keyed hash (the repository file
defining it is not among the sources at hand).  The spec requires a
deterministic keyed hash over the payload, keyed by the secret, producing a
fixed-format encoded string.  The stand-in encodes the code points of
`secret ++ "|" ++ payload` in decimal, dash-separated: deterministic, pure,
and distinct for the concrete inputs used below. -/
def keyedHash (secret payload : String) : String :=
  String.intercalate "-" (((secret ++ "|" ++ payload).toList).map (fun c => Nat.repr c.toNat))

/-- Modelled from the spec: `Derive(secret, identity, purposeTag) -> token`,
a pure function of the triple. -/
def GenerateToken (secret id tag : String) : String :=
  keyedHash secret (id ++ tag)

/-- Modelled from the spec: `IsValid(candidate, secret, identity, purposeTag)`
recomputes the expected token from the triple and compares it with the
candidate. -/
def ValidToken (t secret id tag : String) : Bool :=
  t == GenerateToken secret id tag

/-- The capability struct `csrf` of csrf.go (fields as in the source;
`ErrorFunc` is modelled by the response it writes). -/
structure csrf where
  Header : String
  Form : String
  Cookie : String
  Token : String
  ID : String
  Secret : String
  ErrorFunc : Response
deriving DecidableEq, Repr

/-- `func (c *csrf) GetHeaderName() string`. -/
def csrf.GetHeaderName (c : csrf) : String := c.Header

/-- `func (c *csrf) GetFormName() string`. -/
def csrf.GetFormName (c : csrf) : String := c.Form

/-- `func (c *csrf) GetCookieName() string`. -/
def csrf.GetCookieName (c : csrf) : String := c.Cookie

/-- `func (c *csrf) GetToken() string`. -/
def csrf.GetToken (c : csrf) : String := c.Token

/-- `func (c *csrf) ValidToken(t string) bool`: validates against the
existing Secret and ID with the fixed tag "POST". -/
def csrf.ValidToken (c : csrf) (t : String) : Bool :=
  MacaronCsrf.ValidToken t c.Secret c.ID "POST"

/-- `func (c *csrf) Error(w)` calls `c.ErrorFunc(w)`: the written response. -/
def csrf.Error (c : csrf) : Response := c.ErrorFunc

/-- The `Options` struct; `ErrorFunc` is `none` when the Go field is `nil`,
otherwise the response the configured callback writes. -/
structure Options where
  Secret : String
  Header : String
  Form : String
  Cookie : String
  SessionKey : String
  SetHeader : Bool
  SetCookie : Bool
  Secure : Bool
  ErrorFunc : Option Response
deriving DecidableEq, Repr

/-- The response written by the default error callback installed at
line 133: `http.Error(w, "Invalid csrf token.", http.StatusBadRequest)`. -/
def defaultErrorResponse : Response := ⟨400, "Invalid csrf token."⟩

/-- The in-place defaulting of `opts` performed by the handler on every
request (csrf.go lines 123-136). -/
def resolveOptions (opts : Options) : Options :=
  { opts with
    Header := if opts.Header = "" then "X-CSRFToken" else opts.Header
    Form := if opts.Form = "" then "_csrf" else opts.Form
    Cookie := if opts.Cookie = "" then "_csrf" else opts.Cookie
    ErrorFunc := if opts.ErrorFunc = none then some defaultErrorResponse else opts.ErrorFunc }

/-- A value held in the session store under the session key, as seen by the
type switch at lines 151-158: a string, an int64, or anything else. -/
inductive SessionValue where
  | str (s : String)
  | int64 (i : Int)
  | other
deriving DecidableEq, Repr

/-- The identity the type switch resolves: `none` models the `return`
branches (value absent handled separately by `Option.bind`). -/
def identityOf : SessionValue → Option String
  | .str s => some s
  | .int64 i => some (Int.repr i)
  | .other => none

/-- Identity resolution for `sess.Get(opts.SessionKey)` (lines 147-158):
`none` when the session value is absent or of an unsupported type. -/
def resolveID (v : Option SessionValue) : Option String :=
  v.bind identityOf

/-- The parts of an `http.Request` the handler reads.  `Origin` is
`r.Header.Get("Origin")` (empty string when absent); `Cookies` is the
request's cookie list, so `Cookies.lookup name` models `r.Cookie(name)`
(`none` models the error return). -/
structure Request where
  Method : String
  Origin : String
  Cookies : List (String × String)
  Host : String
deriving DecidableEq, Repr

/-- The `http.Cookie` built at lines 177-189 (time-valued fields and the
raw string renderings are outside the model; `MaxAge` is the constant 0). -/
structure Cookie where
  Name : String
  Value : String
  Path : String
  Domain : String
  Secure : Bool
  HttpOnly : Bool
deriving DecidableEq, Repr

/-- A regular-expression AST sufficient for the source's `domainReg`
pattern: literals, character-range classes, sequencing, alternation, star,
and the `^` / `$` anchors of RE2 (one-line mode). -/
inductive RE where
  | eps
  | chr (c : Char)
  | cls (ranges : List (Char × Char))
  | seq (a b : RE)
  | alt (a b : RE)
  | star (a : RE)
  | bot
  | eot
deriving Repr

/-- `r+` as `r r*`. -/
def RE.plus (r : RE) : RE := .seq r (.star r)

/-- `r?` as `r | ε`. -/
def RE.questionMark (r : RE) : RE := .alt r .eps

/-- Membership of a character in a class given as inclusive ranges. -/
def charInRanges (ranges : List (Char × Char)) (c : Char) : Bool :=
  ranges.any (fun p => decide (p.1 ≤ c) && decide (c ≤ p.2))

/-- End positions reachable by matching `r` in `cs` starting at index `i`.
`bot` succeeds only at position 0 (RE2 `^`, no multiline flag), `eot` only
at the end of the text (RE2 `$`).  Star iterations must consume input, so
fuel bounded by the text length suffices for this pattern's classes. -/
def reRun (fuel : Nat) (r : RE) (cs : List Char) (i : Nat) : List Nat :=
  match fuel with
  | 0 => []
  | fuel + 1 =>
    match r with
    | .eps => [i]
    | .chr c =>
      match cs.get? i with
      | some d => if d = c then [i + 1] else []
      | none => []
    | .cls ranges =>
      match cs.get? i with
      | some d => if charInRanges ranges d then [i + 1] else []
      | none => []
    | .bot => if i = 0 then [i] else []
    | .eot => if i = cs.length then [i] else []
    | .alt a b => reRun fuel a cs i ++ reRun fuel b cs i
    | .seq a b => (reRun fuel a cs i).flatMap (fun j => reRun fuel b cs j)
    | .star a =>
      i :: ((reRun fuel a cs i).filter (fun j => i < j)).flatMap
        (fun j => reRun fuel (.star a) cs j)

/-- Structural size of a pattern, used only to pick a generous fuel. -/
def RE.size : RE → Nat
  | .eps | .chr _ | .cls _ | .bot | .eot => 1
  | .seq a b | .alt a b => a.size + b.size + 1
  | .star a => a.size + 1

/-- Go's unanchored `regexp.Match(pattern, s)`: the pattern matches at some
starting position of `s`. -/
def regexpMatch (r : RE) (s : String) : Bool :=
  let cs := s.toList
  (List.range (cs.length + 1)).any
    (fun i => !(reRun ((cs.length + 2) * (r.size + 2)) r cs i).isEmpty)

/-- The class `[a-z\d]`. -/
def alnumRanges : List (Char × Char) := [('a', 'z'), ('0', '9')]

/-- The class `[a-z\d\-]`. -/
def alnumDashRanges : List (Char × Char) := [('a', 'z'), ('0', '9'), ('-', '-')]

/-- `[a-z\d]+(?:(?:[a-z\d]*)|(?:[a-z\d\-]*[a-z\d]))`: one domain label. -/
def reLabel : RE :=
  .seq (RE.plus (.cls alnumRanges))
    (.alt (.star (.cls alnumRanges))
      (.seq (.star (.cls alnumDashRanges)) (.cls alnumRanges)))

/-- `\.?` then a label then `(?:\.label)*`: the part between the anchors. -/
def reDomainBody : RE :=
  .seq (RE.questionMark (.chr '.'))
    (.seq reLabel (.star (.seq (.chr '.') reLabel)))

/-- The RE2 parse of csrf.go's `domainReg` pattern string, literal slashes
included exactly as in the source constant:
a literal `/`, then `^`, then the domain body, then `$`, then a literal `/`. -/
def domainReg : RE :=
  .seq (.chr '/') (.seq .bot (.seq reDomainBody (.seq .eot (.chr '/'))))

/-- Lines 172-175: the bare hostname (host up to the first colon), kept as
the cookie domain only if `regexp.Match(domainReg, hostname)` reports a
match, else the empty string. -/
def cookieDomain (host : String) : String :=
  let domain := (host.splitOn ":").headD ""
  if regexpMatch domainReg domain then domain else ""

/-- Everything one run of the `Generate` handler produces: the options
after in-place defaulting, the capability mapped into the context, the
`Set-Cookie` written via `http.SetCookie` (if any) and the header added to
the response via `Header().Add` (if any). -/
structure GenerateResult where
  opts : Options
  x : csrf
  setCookie : Option Cookie
  addedHeader : Option (String × String)
deriving DecidableEq, Repr

/-- One run of the handler closure returned by `Generate(opts)`
(csrf.go lines 122-197) on a request `req` whose session store holds
`sessVal` under `opts.SessionKey`. -/
def Generate (opts0 : Options) (req : Request) (sessVal : Option SessionValue) :
    GenerateResult :=
  let opts := resolveOptions opts0
  let x0 : csrf :=
    { Secret := opts.Secret
      Header := opts.Header
      Form := opts.Form
      Cookie := opts.Cookie
      Token := ""
      ID := ""
      ErrorFunc := opts.ErrorFunc.getD defaultErrorResponse }
  match resolveID sessVal with
  | none => ⟨opts, x0, none, none⟩
  | some id =>
    let x1 := { x0 with ID := id }
    if req.Method ≠ "GET" ∨ req.Origin ≠ "" then
      ⟨opts, x1, none, none⟩
    else
      let finish : csrf → Option Cookie → GenerateResult := fun x ck =>
        ⟨opts, x, ck, if opts.SetHeader then some (opts.Header, x.Token) else none⟩
      match req.Cookies.lookup opts.Cookie with
      | some ev =>
        if ev ≠ "" then
          finish { x1 with Token := ev } none
        else
          let token := GenerateToken x1.Secret x1.ID "POST"
          finish { x1 with Token := token }
            (if opts.SetCookie then
              some ⟨opts.Cookie, token, "/", cookieDomain req.Host, opts.Secure, false⟩
            else none)
      | none =>
        let token := GenerateToken x1.Secret x1.ID "POST"
        finish { x1 with Token := token }
          (if opts.SetCookie then
            some ⟨opts.Cookie, token, "/", cookieDomain req.Host, opts.Secure, false⟩
          else none)

/-- The fixed reply of line 219: `http.Error(w, "Bad Request", 400)`. -/
def badRequestResponse : Response := ⟨400, "Bad Request"⟩

/-- The `Validate` middleware (csrf.go lines 205-221) given the value of
the configured header on the request and the value of the configured form
field: `none` when the request is allowed through, `some resp` when a
response is written. -/
def Validate (headerVal formVal : String) (x : csrf) : Option Response :=
  if headerVal ≠ "" then
    if x.ValidToken headerVal then none else some (x.Error)
  else if formVal ≠ "" then
    if x.ValidToken formVal then none else some (x.Error)
  else
    some badRequestResponse

/-! ## Helper lemmas -/

theorem reRun_zero (r : RE) (cs : List Char) (i : Nat) : reRun 0 r cs i = [] := rfl

theorem reRun_succ_chr (f : Nat) (c : Char) (cs : List Char) (i : Nat) :
    reRun (f + 1) (.chr c) cs i =
      (match cs.get? i with
       | some d => if d = c then [i + 1] else []
       | none => []) := rfl

theorem reRun_succ_bot (f : Nat) (cs : List Char) (i : Nat) :
    reRun (f + 1) RE.bot cs i = if i = 0 then [i] else [] := rfl

theorem reRun_succ_seq (f : Nat) (a b : RE) (cs : List Char) (i : Nat) :
    reRun (f + 1) (.seq a b) cs i =
      (reRun f a cs i).flatMap (fun j => reRun f b cs j) := rfl

/-- The tail of `domainReg` after the leading literal slash. -/
def domainRegTail : RE := .seq .bot (.seq reDomainBody (.seq .eot (.chr '/')))

theorem domainReg_eq : domainReg = .seq (.chr '/') domainRegTail := rfl

/-- After consuming the literal `/`, the `^` anchor is at a positive
position and fails, for any fuel. -/
theorem reRun_domainRegTail_eq_nil (f : Nat) (cs : List Char) (j : Nat) :
    reRun f domainRegTail cs (j + 1) = [] := by
  match f with
  | 0 => rfl
  | f + 1 =>
    rw [domainRegTail, reRun_succ_seq]
    match f with
    | 0 => rfl
    | f + 1 =>
      rw [reRun_succ_bot]
      simp

/-- The source's `domainReg` pattern can never match: a successful match
would have to consume a literal `/` and then be at the beginning of the
text. -/
theorem reRun_domainReg_eq_nil (fuel : Nat) (cs : List Char) (i : Nat) :
    reRun fuel domainReg cs i = [] := by
  match fuel with
  | 0 => rfl
  | f + 1 =>
    rw [domainReg_eq, reRun_succ_seq]
    have hc : reRun f (.chr '/') cs i = [] ∨ reRun f (.chr '/') cs i = [i + 1] := by
      match f with
      | 0 => exact Or.inl rfl
      | f + 1 =>
        rw [reRun_succ_chr]
        cases h : cs.get? i with
        | none => exact Or.inl rfl
        | some d =>
          by_cases hd : d = '/'
          · simp [hd]
          · simp [hd]
    rcases hc with h | h
    · rw [h]; rfl
    · rw [h]
      simp [reRun_domainRegTail_eq_nil]

/-- `regexp.Match(domainReg, s)` is false for every string `s`. -/
theorem regexpMatch_domainReg_false (s : String) : regexpMatch domainReg s = false := by
  simp [regexpMatch, reRun_domainReg_eq_nil]

/-- The cookie domain computed at lines 172-175 is the empty string for
every request host. -/
theorem cookieDomain_eq_empty (host : String) : cookieDomain host = "" := by
  rw [cookieDomain, regexpMatch_domainReg_false]
  simp

/-- Whatever the request and session, the handler leaves the options in
their defaulted form. -/
theorem generate_opts_eq (opts : Options) (req : Request) (v : Option SessionValue) :
    (Generate opts req v).opts = resolveOptions opts := by
  unfold Generate
  cases h : resolveID v with
  | none => rfl
  | some id =>
    by_cases hm : req.Method ≠ "GET" ∨ req.Origin ≠ ""
    · simp [hm]
    · simp only [hm, if_neg, ite_false]
      cases hck : req.Cookies.lookup (resolveOptions opts).Cookie with
      | none => rfl
      | some ev =>
        by_cases he : ev ≠ ""
        · simp [he]
        · simp [he]

/-- Defaulting is the identity once every defaultable field is set. -/
theorem resolveOptions_of_set (opts : Options) (hh : opts.Header ≠ "")
    (hf : opts.Form ≠ "") (hc : opts.Cookie ≠ "") (he : opts.ErrorFunc ≠ none) :
    resolveOptions opts = opts := by
  unfold resolveOptions
  simp [hh, hf, hc, he]

/-- `Int.repr` renders an integer in base-10 decimal, with a leading minus
sign exactly for negative values. -/
theorem int_repr_decimal (i : Int) :
    (0 ≤ i → Int.repr i = Nat.repr i.natAbs) ∧
    (i < 0 → Int.repr i = "-" ++ Nat.repr i.natAbs) := by
  cases i with
  | ofNat n =>
    refine ⟨fun _ => rfl, fun h => absurd h ?_⟩
    exact not_lt.mpr (Int.ofNat_le.mpr (Nat.zero_le n))
  | negSucc n =>
    exact ⟨fun h => absurd (Int.negSucc_lt_zero n) (not_lt.mpr h), fun _ => rfl⟩

/-- The published capability's ID is the resolved identity, on every path
through the handler. -/
theorem generate_x_ID (opts : Options) (req : Request) (v : Option SessionValue)
    (id : String) (hid : resolveID v = some id) :
    (Generate opts req v).x.ID = id := by
  by_cases hc : req.Method ≠ "GET" ∨ req.Origin ≠ ""
  · simp [Generate, hid, hc]
  · cases hl : req.Cookies.lookup (resolveOptions opts).Cookie with
    | some ev =>
      by_cases he : ev = "" <;> simp [Generate, hid, hc, hl, he]
    | none => simp [Generate, hid, hc, hl]

theorem resolveOptions_Secret (opts : Options) :
    (resolveOptions opts).Secret = opts.Secret := rfl

/-- The published capability's Secret is the configured secret, on every
path through the handler. -/
theorem generate_x_Secret (opts : Options) (req : Request) (v : Option SessionValue) :
    (Generate opts req v).x.Secret = opts.Secret := by
  cases hv : resolveID v with
  | none => simp [Generate, hv, resolveOptions_Secret]
  | some id =>
    by_cases hc : req.Method ≠ "GET" ∨ req.Origin ≠ ""
    · simp [Generate, hv, hc, resolveOptions_Secret]
    · cases hl : req.Cookies.lookup (resolveOptions opts).Cookie with
      | some ev =>
        by_cases he : ev = "" <;> simp [Generate, hv, hc, hl, he, resolveOptions_Secret]
      | none => simp [Generate, hv, hc, hl, resolveOptions_Secret]

/-- Every Set-Cookie the handler emits carries the resolved cookie name,
the root path, and the domain computed from the request host. -/
theorem generate_setCookie_shape (opts : Options) (req : Request)
    (v : Option SessionValue) :
    (Generate opts req v).setCookie = none ∨
    ∃ token, (Generate opts req v).setCookie =
      some ⟨(resolveOptions opts).Cookie, token, "/", cookieDomain req.Host,
            (resolveOptions opts).Secure, false⟩ := by
  rcases hv : resolveID v with _ | id
  · left; simp [Generate, hv]
  · by_cases hc : req.Method ≠ "GET" ∨ req.Origin ≠ ""
    · left; simp [Generate, hv, hc]
    · cases hl : req.Cookies.lookup (resolveOptions opts).Cookie with
      | some ev =>
        by_cases he : ev = ""
        · by_cases hs : (resolveOptions opts).SetCookie
          · right
            refine ⟨GenerateToken (resolveOptions opts).Secret id "POST", ?_⟩
            simp [Generate, hv, hc, hl, he, hs]
          · left; simp [Generate, hv, hc, hl, he, hs]
        · left; simp [Generate, hv, hc, hl, he]
      | none =>
        by_cases hs : (resolveOptions opts).SetCookie
        · right
          refine ⟨GenerateToken (resolveOptions opts).Secret id "POST", ?_⟩
          simp [Generate, hv, hc, hl, hs]
        · left; simp [Generate, hv, hc, hl, hs]

/-! ## Claim theorems -/

/-- Claim C1: in the Validate middleware, when the configured header
carries a non-empty value, only that header value is validated — the
outcome is the same for any form value and equals the header check — and
the form field decides the outcome only when the header value is empty, so
at most one token location is evaluated per request. -/
theorem validate_header_short_circuits_form (hv f1 f2 : String) (x : csrf)
    (h : hv ≠ "") :
    Validate hv f1 x = Validate hv f2 x ∧
    Validate hv f1 x = (if x.ValidToken hv then none else some x.ErrorFunc) ∧
    (∀ fv, fv ≠ "" →
      Validate "" fv x = (if x.ValidToken fv then none else some x.ErrorFunc)) := by
  refine ⟨?_, ?_, ?_⟩
  · simp [Validate, h]
  · simp [Validate, h, csrf.Error]
  · intro fv hfv
    simp [Validate, hfv, csrf.Error]

/-- Witness for C1 at concrete inputs: a non-empty header value gives the
same outcome whatever the form field holds. -/
theorem validate_header_short_circuits_form_witness :
    ("tok" : String) ≠ "" ∧
    (Validate "tok" "a" ⟨"X-CSRFToken", "_csrf", "_csrf", "", "123456", "token123", ⟨422, "custom error"⟩⟩ =
      Validate "tok" "b" ⟨"X-CSRFToken", "_csrf", "_csrf", "", "123456", "token123", ⟨422, "custom error"⟩⟩) :=
  ⟨by decide,
    (validate_header_short_circuits_form "tok" "a" "b"
      ⟨"X-CSRFToken", "_csrf", "_csrf", "", "123456", "token123", ⟨422, "custom error"⟩⟩
      (by decide)).1⟩

/-- Claim C2: Validate distinguishes missing from invalid tokens — with
neither location carrying a value it writes the fixed 400 "Bad Request"
whatever error callback the capability carries, while a consulted
non-empty invalid token triggers the capability's error callback, whose
default writes 400 "Invalid csrf token.". -/
theorem validate_missing_vs_invalid_token (x : csrf) (t : String)
    (ht : t ≠ "") (hbad : x.ValidToken t = false) :
    Validate "" "" x = some ⟨400, "Bad Request"⟩ ∧
    Validate t "" x = some x.ErrorFunc ∧
    Validate "" t x = some x.ErrorFunc ∧
    defaultErrorResponse = ⟨400, "Invalid csrf token."⟩ := by
  refine ⟨rfl, ?_, ?_, rfl⟩
  · simp [Validate, ht, hbad, csrf.Error]
  · simp [Validate, ht, hbad, csrf.Error]

/-- Witness for C2 at a concrete capability with a custom error callback
and the invalid token "bad". -/
theorem validate_missing_vs_invalid_token_witness :
    ("bad" : String) ≠ "" ∧
    csrf.ValidToken ⟨"X-CSRFToken", "_csrf", "_csrf", "", "123456", "token123", ⟨422, "custom error"⟩⟩ "bad" = false ∧
    Validate "" "" ⟨"X-CSRFToken", "_csrf", "_csrf", "", "123456", "token123", ⟨422, "custom error"⟩⟩ =
      some ⟨400, "Bad Request"⟩ ∧
    Validate "bad" "" ⟨"X-CSRFToken", "_csrf", "_csrf", "", "123456", "token123", ⟨422, "custom error"⟩⟩ =
      some ⟨422, "custom error"⟩ :=
  ⟨by decide, by decide,
    (validate_missing_vs_invalid_token
      ⟨"X-CSRFToken", "_csrf", "_csrf", "", "123456", "token123", ⟨422, "custom error"⟩⟩
      "bad" (by decide) (by decide)).1,
    (validate_missing_vs_invalid_token
      ⟨"X-CSRFToken", "_csrf", "_csrf", "", "123456", "token123", ⟨422, "custom error"⟩⟩
      "bad" (by decide) (by decide)).2.1⟩

/-- Claim C3: round-trip validity of the token codec — a token freshly
derived for the capability's secret and identity validates successfully
against that same capability. -/
theorem validToken_roundtrip (x : csrf) :
    x.ValidToken (GenerateToken x.Secret x.ID "POST") = true := by
  simp [csrf.ValidToken, ValidToken]

/-- Claim C4: for a request whose method is not GET or which carries a
non-empty Origin header, the handler emits no Set-Cookie, adds no response
header, and the published capability's token is the empty string. -/
theorem generate_non_get_or_origin_no_issue (opts : Options) (req : Request)
    (v : Option SessionValue) (h : req.Method ≠ "GET" ∨ req.Origin ≠ "") :
    (Generate opts req v).setCookie = none ∧
    (Generate opts req v).addedHeader = none ∧
    (Generate opts req v).x.GetToken = "" := by
  cases hv : resolveID v with
  | none => simp [Generate, hv, csrf.GetToken]
  | some id =>
    rcases h with h | h <;> simp [Generate, hv, h, csrf.GetToken]

/-- Witness for C4: a POST request with a session identity and both
transports enabled still yields no cookie, no header, and an empty token. -/
theorem generate_non_get_or_origin_no_issue_witness :
    (("POST" : String) ≠ "GET" ∨ ("" : String) ≠ "") ∧
    (Generate ⟨"token123", "", "", "", "userID", true, true, false, none⟩
        ⟨"POST", "", [], "localhost"⟩ (some (.str "123456"))).setCookie = none ∧
    (Generate ⟨"token123", "", "", "", "userID", true, true, false, none⟩
        ⟨"POST", "", [], "localhost"⟩ (some (.str "123456"))).addedHeader = none ∧
    (Generate ⟨"token123", "", "", "", "userID", true, true, false, none⟩
        ⟨"POST", "", [], "localhost"⟩ (some (.str "123456"))).x.GetToken = "" :=
  ⟨Or.inl (by decide),
    generate_non_get_or_origin_no_issue
      ⟨"token123", "", "", "", "userID", true, true, false, none⟩
      ⟨"POST", "", [], "localhost"⟩ (some (.str "123456")) (Or.inl (by decide))⟩

/-- Claim C5: on a GET request without Origin and with a resolved
identity, a non-empty value of the configured transport cookie is reused
as the capability's token and no Set-Cookie is emitted; a new token is
derived only when no such cookie value is present. -/
theorem generate_cookie_reuse (opts : Options) (req : Request)
    (v : Option SessionValue) (id : String)
    (hid : resolveID v = some id) (hm : req.Method = "GET") (ho : req.Origin = "") :
    (∀ ev, req.Cookies.lookup (resolveOptions opts).Cookie = some ev → ev ≠ "" →
        (Generate opts req v).x.Token = ev ∧ (Generate opts req v).setCookie = none) ∧
    ((req.Cookies.lookup (resolveOptions opts).Cookie = none ∨
        req.Cookies.lookup (resolveOptions opts).Cookie = some "") →
      (Generate opts req v).x.Token = GenerateToken opts.Secret id "POST") := by
  constructor
  · intro ev hev hne
    simp [Generate, hid, hm, ho, hev, hne]
  · intro hck
    rcases hck with hck | hck <;>
      simp [Generate, hid, hm, ho, hck, resolveOptions_Secret]

/-- Witness for C5: a GET request carrying the cookie `_csrf=old-token`
keeps that token and writes no new cookie. -/
theorem generate_cookie_reuse_witness :
    resolveID (some (.str "123456")) = some "123456" ∧
    (Generate ⟨"token123", "", "", "", "userID", false, true, false, none⟩
        ⟨"GET", "", [("_csrf", "old-token")], "localhost"⟩
        (some (.str "123456"))).x.Token = "old-token" ∧
    (Generate ⟨"token123", "", "", "", "userID", false, true, false, none⟩
        ⟨"GET", "", [("_csrf", "old-token")], "localhost"⟩
        (some (.str "123456"))).setCookie = none :=
  ⟨by decide,
    (generate_cookie_reuse ⟨"token123", "", "", "", "userID", false, true, false, none⟩
      ⟨"GET", "", [("_csrf", "old-token")], "localhost"⟩
      (some (.str "123456")) "123456" (by decide) (by decide) (by decide)).1
      "old-token" (by decide) (by decide)⟩

/-- Claim C6 (code defect): every Set-Cookie the handler emits has an
empty Domain attribute, whatever the request host — the `domainReg`
pattern, kept with its literal slash delimiters, matches no hostname at
all, so the comment's intent of keeping a valid bare hostname is never
realized. -/
theorem generate_cookie_domain_always_empty (opts : Options) (req : Request)
    (v : Option SessionValue) (ck : Cookie)
    (h : (Generate opts req v).setCookie = some ck) : ck.Domain = "" := by
  rcases generate_setCookie_shape opts req v with hs | ⟨tok, hs⟩
  · rw [hs] at h; cases h
  · rw [hs] at h
    injection h with h
    rw [← h]
    exact cookieDomain_eq_empty req.Host

/-- Witness for C6: a fresh token minted on host "example.com" — a
perfectly well-formed hostname — still gets Domain = "". -/
theorem generate_cookie_domain_always_empty_witness :
    (Generate ⟨"token123", "", "", "", "userID", false, true, false, none⟩
        ⟨"GET", "", [], "example.com"⟩ (some (.str "123456"))).setCookie =
      some ⟨"_csrf", GenerateToken "token123" "123456" "POST", "/", "", false, false⟩ ∧
    (⟨"_csrf", GenerateToken "token123" "123456" "POST", "/", "", false, false⟩ : Cookie).Domain = "" :=
  have h : (Generate ⟨"token123", "", "", "", "userID", false, true, false, none⟩
      ⟨"GET", "", [], "example.com"⟩ (some (.str "123456"))).setCookie =
        some ⟨"_csrf", GenerateToken "token123" "123456" "POST", "/", "", false, false⟩ := by
    simp [Generate, resolveID, identityOf, resolveOptions, cookieDomain_eq_empty]
  ⟨h,
    generate_cookie_domain_always_empty
      ⟨"token123", "", "", "", "userID", false, true, false, none⟩
      ⟨"GET", "", [], "example.com"⟩ (some (.str "123456"))
      ⟨"_csrf", GenerateToken "token123" "123456" "POST", "/", "", false, false⟩
      h⟩

/-- Claim C7: identity resolution — an absent session value or one of an
unsupported type makes the handler skip token issuance entirely and
silently (no token, no cookie, no header, capability at defaults); a
string identity is used as-is, and an int64 identity as its base-10
decimal rendering. -/
theorem generate_identity_resolution (opts : Options) (req : Request) :
    (∀ v, resolveID v = none →
        (Generate opts req v).x.Token = "" ∧ (Generate opts req v).x.ID = "" ∧
        (Generate opts req v).setCookie = none ∧
        (Generate opts req v).addedHeader = none) ∧
    (∀ s, (Generate opts req (some (.str s))).x.ID = s) ∧
    (∀ i, 0 ≤ i → (Generate opts req (some (.int64 i))).x.ID = Nat.repr i.natAbs) ∧
    (∀ i, i < 0 → (Generate opts req (some (.int64 i))).x.ID = "-" ++ Nat.repr i.natAbs) := by
  refine ⟨?_, ?_, ?_, ?_⟩
  · intro v hv
    simp [Generate, hv]
  · intro s
    exact generate_x_ID opts req (some (.str s)) s rfl
  · intro i hi
    rw [generate_x_ID opts req (some (.int64 i)) (Int.repr i) rfl]
    exact (int_repr_decimal i).1 hi
  · intro i hi
    rw [generate_x_ID opts req (some (.int64 i)) (Int.repr i) rfl]
    exact (int_repr_decimal i).2 hi

/-- Witness for C7: an unsupported session value is a silent no-op, a
string identity is kept verbatim, and the int64 identities 7 and -7
become "7" and "-7". -/
theorem generate_identity_resolution_witness :
    resolveID (some .other) = none ∧
    (Generate ⟨"token123", "", "", "", "userID", true, true, false, none⟩
        ⟨"GET", "", [], "localhost"⟩ (some .other)).x.Token = "" ∧
    (Generate ⟨"token123", "", "", "", "userID", true, true, false, none⟩
        ⟨"GET", "", [], "localhost"⟩ (some (.str "123456"))).x.ID = "123456" ∧
    (Generate ⟨"token123", "", "", "", "userID", true, true, false, none⟩
        ⟨"GET", "", [], "localhost"⟩ (some (.int64 7))).x.ID = Nat.repr (7 : Int).natAbs ∧
    (Generate ⟨"token123", "", "", "", "userID", true, true, false, none⟩
        ⟨"GET", "", [], "localhost"⟩ (some (.int64 (-7)))).x.ID = "-" ++ Nat.repr (-7 : Int).natAbs :=
  ⟨by decide,
    ((generate_identity_resolution ⟨"token123", "", "", "", "userID", true, true, false, none⟩
        ⟨"GET", "", [], "localhost"⟩).1 (some .other) (by decide)).1,
    (generate_identity_resolution ⟨"token123", "", "", "", "userID", true, true, false, none⟩
        ⟨"GET", "", [], "localhost"⟩).2.1 "123456",
    (generate_identity_resolution ⟨"token123", "", "", "", "userID", true, true, false, none⟩
        ⟨"GET", "", [], "localhost"⟩).2.2.1 7 (by decide),
    (generate_identity_resolution ⟨"token123", "", "", "", "userID", true, true, false, none⟩
        ⟨"GET", "", [], "localhost"⟩).2.2.2 (-7) (by decide)⟩

/-- Claim C8 counterexample: on a GET request that mints a token, the
codec's third input is not the request's method — the minted token is the
one derived with the fixed tag "POST" and differs from the token the
request's own method "GET" would give. -/
theorem token_tag_not_request_method_cex :
    (Generate ⟨"token123", "", "", "", "userID", false, false, false, none⟩
        ⟨"GET", "", [], "localhost"⟩ (some (.str "123456"))).x.Token =
      GenerateToken "token123" "123456" "POST" ∧
    (Generate ⟨"token123", "", "", "", "userID", false, false, false, none⟩
        ⟨"GET", "", [], "localhost"⟩ (some (.str "123456"))).x.Token ≠
      GenerateToken "token123" "123456" "GET" := by
  constructor
  · decide
  · decide

/-- Claim C8 amended: the codec's third input is the fixed purpose tag
"POST" on both sides — a minted token is derived from
(secret, identity, "POST") whatever the request method, and the
capability's ValidToken accepts exactly the token of that same triple. -/
theorem token_fixed_purpose_tag (opts : Options) (req : Request)
    (v : Option SessionValue) (id : String)
    (hid : resolveID v = some id) (hm : req.Method = "GET") (ho : req.Origin = "")
    (hck : req.Cookies.lookup (resolveOptions opts).Cookie = none ∨
        req.Cookies.lookup (resolveOptions opts).Cookie = some "") :
    (Generate opts req v).x.Token = GenerateToken opts.Secret id "POST" ∧
    (∀ t, (Generate opts req v).x.ValidToken t = true ↔
        t = GenerateToken opts.Secret id "POST") := by
  constructor
  · rcases hck with h | h <;>
      simp [Generate, hid, hm, ho, h, resolveOptions_Secret]
  · intro t
    rw [csrf.ValidToken, ValidToken, generate_x_Secret, generate_x_ID opts req v id hid]
    simp

/-- Witness for C8 amended, at a concrete GET request minting a token. -/
theorem token_fixed_purpose_tag_witness :
    (Generate ⟨"token123", "", "", "", "userID", false, false, false, none⟩
        ⟨"GET", "", [], "localhost"⟩ (some (.str "42"))).x.Token =
      GenerateToken "token123" "42" "POST" ∧
    ((Generate ⟨"token123", "", "", "", "userID", false, false, false, none⟩
        ⟨"GET", "", [], "localhost"⟩ (some (.str "42"))).x.ValidToken
      (GenerateToken "token123" "42" "POST") = true ↔
      GenerateToken "token123" "42" "POST" = GenerateToken "token123" "42" "POST") :=
  ⟨(token_fixed_purpose_tag ⟨"token123", "", "", "", "userID", false, false, false, none⟩
      ⟨"GET", "", [], "localhost"⟩ (some (.str "42")) "42"
      (by decide) (by decide) (by decide) (Or.inl (by decide))).1,
    (token_fixed_purpose_tag ⟨"token123", "", "", "", "userID", false, false, false, none⟩
      ⟨"GET", "", [], "localhost"⟩ (some (.str "42")) "42"
      (by decide) (by decide) (by decide) (Or.inl (by decide))).2
      (GenerateToken "token123" "42" "POST")⟩

/-- Claim C9 counterexample: handling a request mutates the shared Options
value the handler was constructed with — with an empty Header field the
defaulting writes "X-CSRFToken" into it, so the configuration is not left
unchanged. -/
theorem options_mutated_in_place_cex :
    (Generate ⟨"token123", "", "", "", "userID", false, false, false, none⟩
        ⟨"GET", "", [], "localhost"⟩ none).opts ≠
      ⟨"token123", "", "", "", "userID", false, false, false, none⟩ := by
  decide

/-- Claim C9 amended: the only shared state the handler mutates besides
the session store is the Options value, and only by writing defaults into
its empty Header/Form/Cookie/ErrorFunc fields; once those four fields are
set, handling a request leaves the shared Options unchanged. -/
theorem options_unchanged_when_fully_set (opts : Options) (req : Request)
    (v : Option SessionValue) (hh : opts.Header ≠ "") (hf : opts.Form ≠ "")
    (hc : opts.Cookie ≠ "") (he : opts.ErrorFunc ≠ none) :
    (Generate opts req v).opts = opts := by
  rw [generate_opts_eq, resolveOptions_of_set opts hh hf hc he]

/-- Witness for C9 amended at a fully-resolved configuration. -/
theorem options_unchanged_when_fully_set_witness :
    (("X-CSRFToken" : String) ≠ "" ∧ ("_csrf" : String) ≠ "" ∧
      (some defaultErrorResponse : Option Response) ≠ none) ∧
    (Generate ⟨"token123", "X-CSRFToken", "_csrf", "_csrf", "userID", true, true,
        false, some defaultErrorResponse⟩
        ⟨"GET", "", [], "localhost"⟩ (some (.str "123456"))).opts =
      ⟨"token123", "X-CSRFToken", "_csrf", "_csrf", "userID", true, true,
        false, some defaultErrorResponse⟩ :=
  ⟨⟨by decide, by decide, by decide⟩,
    options_unchanged_when_fully_set
      ⟨"token123", "X-CSRFToken", "_csrf", "_csrf", "userID", true, true,
        false, some defaultErrorResponse⟩
      ⟨"GET", "", [], "localhost"⟩ (some (.str "123456"))
      (by decide) (by decide) (by decide) (by decide)⟩

/-- Claim C10: with no resolved identity (session value absent or
unsupported) the published capability still exists with the empty ID and
the configured secret, so its ValidToken accepts exactly the token derived
for the empty-string identity — validation is not a uniform reject. -/
theorem no_identity_capability_validation (opts : Options) (req : Request) :
    (Generate opts req none).x.ID = "" ∧
    (Generate opts req (some .other)).x.ID = "" ∧
    (Generate opts req none).x.Secret = opts.Secret ∧
    (∀ t, ((Generate opts req none).x.ValidToken t = true ↔
        t = GenerateToken opts.Secret "" "POST")) ∧
    (Generate opts req none).x.ValidToken (GenerateToken opts.Secret "" "POST") = true := by
  have hID : (Generate opts req none).x.ID = "" := by
    simp [Generate, resolveID]
  refine ⟨hID, ?_, generate_x_Secret opts req none, ?_, ?_⟩
  · simp [Generate, resolveID, identityOf]
  · intro t
    rw [csrf.ValidToken, ValidToken, generate_x_Secret, hID]
    simp
  · rw [csrf.ValidToken, ValidToken, generate_x_Secret, hID]
    simp

end MacaronCsrf
